import Mathlib

/-!
Shallow embedding of `src/Drone/Drone.py` (class `Drone`) and of the parts of
the repository it uses that are not shipped under `src/` (the `Lidar` class and
the `DroneState` enum), together with proofs of the specification claims.

Numeric semantics: Python floats are modelled by exact rationals (ℚ).  The
transcendental helpers `cos(radians(·))` and `sin(radians(·))` used by
`calc_x`/`calc_y` and by the lidar ray cast cannot be rational-valued
functions, so they are passed as explicit parameters `cosr sinr : ℚ → ℚ`
standing for `fun deg => cos (radians deg)` and `fun deg => sin (radians deg)`;
every theorem below quantifies over them, so each result holds in particular
for the real trigonometric functions.
-/

namespace DroneSim

/-- Colors compared with `==` in the Python code; modelled as naturals. -/
abbrev Color := ℕ

/-- The pygame surface `maze`, consumed only through `maze.get_at((x, y))`. -/
abbrev Maze := ℤ × ℤ → Color

/-- Python `int(q)`: truncation toward zero. -/
def pyInt (q : ℚ) : ℤ := if q < 0 then ⌈q⌉ else ⌊q⌋

/-- Python `round(q)` (and the rounding CPython applies when converting
fractional seconds to whole microseconds): round half to even. -/
def pyRound (q : ℚ) : ℤ :=
  let f := ⌊q⌋
  let r := q - f
  if r < 1/2 then f
  else if 1/2 < r then f + 1
  else if f % 2 = 0 then f else f + 1

/-- Python `a % b` on numbers: remainder with the sign of the divisor,
`a - b * floor (a / b)`. -/
def pyMod (a b : ℚ) : ℚ := a - b * ⌊a / b⌋

/-- Python `"%02d" % n`: decimal rendering zero-padded to width 2; for
`0 ≤ n < 100` this is exactly two decimal digits. -/
def pad2 (n : ℤ) : String :=
  if 0 ≤ n ∧ n < 100
  then String.mk [Nat.digitChar (n.toNat / 10), Nat.digitChar (n.toNat % 10)]
  else toString n

/-- Python `"%06d" % n`: decimal rendering zero-padded to width 6; for
`0 ≤ n < 1000000` this is exactly six decimal digits. -/
def pad6 (n : ℤ) : String :=
  if 0 ≤ n ∧ n < 1000000
  then
    let m := n.toNat
    String.mk [Nat.digitChar (m / 100000 % 10), Nat.digitChar (m / 10000 % 10),
               Nat.digitChar (m / 1000 % 10), Nat.digitChar (m / 100 % 10),
               Nat.digitChar (m / 10 % 10), Nat.digitChar (m % 10)]
  else toString n

/-- Modelled from CPython `datetime`: rendering of a `timedelta` of `us`
whole microseconds.  The delta is split by floor division into
days / seconds / microseconds and rendered as `H:MM:SS`, with `.ffffff`
appended when microseconds are nonzero and a `D day(s), ` prefix when days
are nonzero. -/
def tdFormat (us : ℤ) : String :=
  let sTot := us.fdiv 1000000
  let usFrac := us.fmod 1000000
  let days := sTot.fdiv 86400
  let secs := sTot.fmod 86400
  let mm0 := secs.fdiv 60
  let ss := secs.fmod 60
  let hh := mm0.fdiv 60
  let mm := mm0.fmod 60
  let base := toString hh ++ ":" ++ pad2 mm ++ ":" ++ pad2 ss
  let base1 := if usFrac ≠ 0 then base ++ "." ++ pad6 usFrac else base
  if days ≠ 0
  then toString days ++ " day" ++ (if days = 1 ∨ days = -1 then "" else "s") ++
       ", " ++ base1
  else base1

/-- Modelled from CPython `datetime`: `str(timedelta(seconds=t))` — the
seconds are normalised to whole microseconds (round half to even, as
CPython does) and rendered by `tdFormat`. -/
def pyTimedeltaStr (t : ℚ) : String :=
  tdFormat (pyRound (t * 1000000))

/-- Python `s.split('.')[0]`: the segment before the first dot (the whole
string when no dot occurs). -/
def pySplitDotHead (s : String) : String :=
  String.mk (s.toList.takeWhile (fun c => c ≠ '.'))

/-- Checks that a string is strictly of the form `H:MM:SS`: one or more
digits, a colon, two digits, a colon, two digits, and nothing else. -/
def isHMMSS (s : String) : Bool :=
  let hd := s.toList.takeWhile Char.isDigit
  let tl := s.toList.dropWhile Char.isDigit
  !hd.isEmpty &&
    (match tl with
     | c1 :: m1 :: m2 :: c2 :: s1 :: s2 :: [] =>
         c1 == ':' && c2 == ':' && m1.isDigit && m2.isDigit &&
           s1.isDigit && s2.isDigit
     | _ => false)

/-- Modelled from the spec: the `DroneState` enum (file `DroneState.py`, not
under `src/`), states GROUND → TAKE_OFF → LAND (§4.3).  The Python field
`self.state` initially holds the class object itself, which compares unequal
to every member; since `Drone.py` only ever compares the field against `LAND`,
initialising the model field to `GROUND` is observationally equivalent. -/
inductive DroneState
  | GROUND
  | TAKE_OFF
  | LAND
deriving DecidableEq, Repr

/-- Modelled from the spec: the `Lidar` class (not under `src/`), §3 and §4.1:
`relative_angle` in degrees accumulated additively, a mount position, and a
fixed maximum scan range. -/
structure Lidar where
  relative_angle : ℚ
  position : ℤ × ℤ
  max_range : ℕ
deriving DecidableEq, Repr

/-- Modelled from the spec: `add_angle(delta)` is `relative_angle += delta`
(§4.1, no wraparound). -/
def Lidar.add_angle (delta : ℚ) (l : Lidar) : Lidar :=
  { l with relative_angle := l.relative_angle + delta }

/-- Modelled from the spec: `move(coordinate)` sets the mount position (§4.1). -/
def Lidar.move (coordinate : ℤ × ℤ) (l : Lidar) : Lidar :=
  { l with position := coordinate }

/-- Modelled from the spec: `cast` steps outward from the mount position along
the direction given by `relative_angle`, sampling the raster at unit
increments up to `max_range`, and returns the first sampled pixel whose color
equals the bounds color, or a no-hit sentinel (`none`) (§4.1). -/
def Lidar.cast (cosr sinr : ℚ → ℚ) (maze : Maze) (bounds_color : Color)
    (l : Lidar) : Option (ℤ × ℤ) :=
  (List.range l.max_range).findSome? fun k =>
    let p := (pyRound ((l.position.1 : ℚ) + (k + 1 : ℕ) * cosr l.relative_angle),
              pyRound ((l.position.2 : ℚ) + (k + 1 : ℕ) * sinr l.relative_angle))
    if maze p = bounds_color then some p else none

/-- Modelled from the spec: the lidar's `check_bounds(maze)` is a pure query
reporting the cast result, mutating no sensor state (§4.1). -/
def Lidar.check_bounds (cosr sinr : ℚ → ℚ) (maze : Maze) (bounds_color : Color)
    (l : Lidar) : Option (ℤ × ℤ) :=
  l.cast cosr sinr maze bounds_color

/-- The pygame key map, read only at `K_LEFT`, `K_RIGHT`, `K_UP`, `K_DOWN`. -/
structure Key where
  left : Bool
  right : Bool
  up : Bool
  down : Bool
deriving DecidableEq, Repr

/-- State of the `Drone` instance: the mutable fields set in `__init__`
(lines 22–35 of `Drone.py`). -/
structure Drone where
  yaw : ℚ
  state : DroneState
  speed : ℚ
  time_in_air : ℚ
  error_case : ℕ
  score : ℤ
  radius : ℚ
  x_position : ℚ
  y_position : ℚ
  lidars : List Lidar
  color : Color
  bounds_color : Color
deriving DecidableEq, Repr

namespace Drone

/-- Class constant `MAX_SPEED = 3` (declared, not enforced by motion code). -/
def MAX_SPEED : ℚ := 3

/-- Class constant `MAX_YAW_SPEED = 180`. -/
def MAX_YAW_SPEED : ℚ := 180

/-- Class constant `MAX_FLIGHT_TIME = 60 * 5`. -/
def MAX_FLIGHT_TIME : ℚ := 60 * 5

/-- Class constant `DT = 1.0 / 50`. -/
def DT : ℚ := 1 / 50

/-- `__init__(start_x, start_y, color, bounds_color, lidars)`. -/
def init (start_x start_y : ℚ) (color bounds_color : Color)
    (lidars : List Lidar) : Drone :=
  { yaw := 0
    state := DroneState.GROUND
    speed := 0
    time_in_air := MAX_FLIGHT_TIME
    error_case := 0
    score := 0
    radius := 3
    x_position := start_x
    y_position := start_y
    lidars := lidars
    color := color
    bounds_color := bounds_color }

/-- `get_position`: `(round(x_position), round(y_position))`. -/
def get_position (d : Drone) : ℤ × ℤ :=
  (pyRound d.x_position, pyRound d.y_position)

/-- `check_bounds(maze, game_display)`: queries every lidar and collects the
hit coordinates it draws via `draw_bounds` (returned here as the render
trace), then samples the maze at `(int(x_position), int(y_position))` and
increments `error_case` when that sample equals `bounds_color`; always
returns `False`. -/
def check_bounds (cosr sinr : ℚ → ℚ) (maze : Maze) (d : Drone) :
    Drone × (List (ℤ × ℤ) × Bool) :=
  let hits := d.lidars.filterMap (Lidar.check_bounds cosr sinr maze d.bounds_color)
  let d' := if maze (pyInt d.x_position, pyInt d.y_position) = d.bounds_color
            then { d with error_case := d.error_case + 1 }
            else d
  (d', (hits, false))

/-- `calc_x`: `cos(radians(yaw)) * radius`, with `cosr` standing for
`cos ∘ radians`. -/
def calc_x (cosr : ℚ → ℚ) (d : Drone) : ℚ := cosr d.yaw * d.radius

/-- `calc_y`: `sin(radians(yaw)) * radius`, with `sinr` standing for
`sin ∘ radians`. -/
def calc_y (sinr : ℚ → ℚ) (d : Drone) : ℚ := sinr d.yaw * d.radius

/-- `rotate(maze, direction, game_display)`: adds `direction * speed` to
`yaw`, renormalises (`% 360` when ≥ 360, `360 + yaw` when negative), adds the
same delta to every lidar's `relative_angle`, then runs `check_bounds`
(whose boolean result is discarded). -/
def rotate (cosr sinr : ℚ → ℚ) (maze : Maze) (direction : ℚ) (d : Drone) :
    Drone :=
  let yaw1 := d.yaw + direction * d.speed
  let yaw2 := if yaw1 ≥ 360 then pyMod yaw1 360
              else if yaw1 < 0 then 360 + yaw1
              else yaw1
  let d1 := { d with
                yaw := yaw2
                lidars := d.lidars.map (Lidar.add_angle (direction * d.speed)) }
  (d1.check_bounds cosr sinr maze).1

/-- `change_lidars_positions(maze, game_display)`: moves every lidar to the
drone's current rounded position (the subsequent `lidar.draw` is rendering
only). -/
def change_lidars_positions (d : Drone) : Drone :=
  { d with lidars := d.lidars.map (Lidar.move d.get_position) }

/-- `is_crashed(maze)`: samples the maze at `get_position()`; on the bounds
color, increments `error_case` and returns `True`, else returns `False`. -/
def is_crashed (maze : Maze) (d : Drone) : Drone × Bool :=
  if maze d.get_position = d.bounds_color
  then ({ d with error_case := d.error_case + 1 }, true)
  else (d, false)

/-- `move(game_display, maze)`: integrates the position by
`speed * calc_x()` and `speed * calc_y()`, relocates the lidars, then runs
`is_crashed` (whose boolean result is discarded). -/
def move (cosr sinr : ℚ → ℚ) (maze : Maze) (d : Drone) : Drone :=
  let d1 := { d with
                x_position := d.x_position + d.speed * d.calc_x cosr
                y_position := d.y_position + d.speed * d.calc_y sinr }
  let d2 := d1.change_lidars_positions
  (d2.is_crashed maze).1

/-- `forward(acc=1.)`: `n_speed = speed + 0.2 * acc`;
`speed = n_speed if n_speed < 2 else 2`. -/
def forward (acc : ℚ) (d : Drone) : Drone :=
  let n_speed := d.speed + 1/5 * acc
  { d with speed := if n_speed < 2 then n_speed else 2 }

/-- `backward(acc=1.)`: `n_speed = speed - 0.2 * acc`;
`speed = n_speed if n_speed > 0 else 0.2`. -/
def backward (acc : ℚ) (d : Drone) : Drone :=
  let n_speed := d.speed - 1/5 * acc
  { d with speed := if n_speed > 0 then n_speed else 1/5 }

/-- `handle_keys(maze, game_display, key)`: LAND revives to TAKE_OFF, the
time budget is decremented (`time_in_air -= 1/25 if time_in_air > 0 else
time_in_air`, i.e. zeroed once non-positive), exhaustion forces LAND and
returns `False`, otherwise `check_bounds` runs and the key dispatches to
`rotate` / `forward`+`move` / `backward`+`move`. -/
def handle_keys (cosr sinr : ℚ → ℚ) (maze : Maze) (key : Key) (d : Drone) :
    Drone × Bool :=
  let d1 := if d.state = DroneState.LAND
            then { d with state := DroneState.TAKE_OFF }
            else d
  let d2 := { d1 with
                time_in_air :=
                  d1.time_in_air -
                    (if d1.time_in_air > 0 then 1/25 else d1.time_in_air) }
  if d2.time_in_air = 0 then ({ d2 with state := DroneState.LAND }, false)
  else
    let d3 := (d2.check_bounds cosr sinr maze).1
    if key.left then (d3.rotate cosr sinr maze (-1), true)
    else if key.right then (d3.rotate cosr sinr maze 1, true)
    else if key.up then ((d3.forward 1).move cosr sinr maze, true)
    else if key.down then ((d3.backward 1).move cosr sinr maze, true)
    else (d3, false)

end Drone

/-- The fixed shape of the dict returned by `get_info_dict` (lines 206–215):
index 0 = head, 1 = right, 2 = left. -/
structure InfoDict where
  yaw : ℚ
  speed : ℚ
  left : Lidar
  right : Lidar
  head : Lidar
  crash : ℕ
  score : ℤ
  battery : String
deriving DecidableEq, Repr

namespace Drone

/-- `get_info_dict`: assembles the telemetry dict; `none` models the
`IndexError` raised when fewer than three lidars are owned.  `battery` is
`str(timedelta(seconds=time_in_air)).split('.')[0]`. -/
def get_info_dict (d : Drone) : Option InfoDict := do
  let head ← d.lidars[0]?
  let right ← d.lidars[1]?
  let left ← d.lidars[2]?
  pure { yaw := d.yaw
         speed := d.speed
         left := left
         right := right
         head := head
         crash := d.error_case
         score := d.score
         battery := pySplitDotHead (pyTimedeltaStr d.time_in_air) }

/-- A sequence of `rotate` calls, one per listed direction. -/
def rotateSeq (cosr sinr : ℚ → ℚ) (maze : Maze) (ds : List ℚ) (d : Drone) :
    Drone :=
  ds.foldl (fun d direction => d.rotate cosr sinr maze direction) d

/-- The delta `rotate` adds to `yaw` before normalisation (line 46:
`self.yaw += direction * self.speed`). -/
def yawDelta (direction : ℚ) (d : Drone) : ℚ := direction * d.speed

/-- The cumulative pre-normalisation delta applied to `yaw` over a sequence
of `rotate` calls: the sum of `yawDelta` at each intermediate state. -/
def cumYawDelta (cosr sinr : ℚ → ℚ) (maze : Maze) (ds : List ℚ) (d : Drone) :
    ℚ :=
  match ds with
  | [] => 0
  | direction :: rest =>
      d.yawDelta direction +
        cumYawDelta cosr sinr maze rest (d.rotate cosr sinr maze direction)

end Drone

/-! ### Basic lemmas about the operations -/

namespace Drone

theorem check_bounds_fst (cosr sinr : ℚ → ℚ) (maze : Maze) (d : Drone) :
    (d.check_bounds cosr sinr maze).1 =
      if maze (pyInt d.x_position, pyInt d.y_position) = d.bounds_color
      then { d with error_case := d.error_case + 1 }
      else d := rfl

theorem check_bounds_returns_false (cosr sinr : ℚ → ℚ) (maze : Maze)
    (d : Drone) : (d.check_bounds cosr sinr maze).2.2 = false := rfl

theorem check_bounds_error (cosr sinr : ℚ → ℚ) (maze : Maze) (d : Drone) :
    (d.check_bounds cosr sinr maze).1.error_case =
      d.error_case +
        (if maze (pyInt d.x_position, pyInt d.y_position) = d.bounds_color
         then 1 else 0) := by
  rw [check_bounds_fst]; split <;> simp

theorem check_bounds_speed (cosr sinr : ℚ → ℚ) (maze : Maze) (d : Drone) :
    (d.check_bounds cosr sinr maze).1.speed = d.speed := by
  rw [check_bounds_fst]; split <;> rfl

theorem check_bounds_yaw (cosr sinr : ℚ → ℚ) (maze : Maze) (d : Drone) :
    (d.check_bounds cosr sinr maze).1.yaw = d.yaw := by
  rw [check_bounds_fst]; split <;> rfl

theorem check_bounds_state (cosr sinr : ℚ → ℚ) (maze : Maze) (d : Drone) :
    (d.check_bounds cosr sinr maze).1.state = d.state := by
  rw [check_bounds_fst]; split <;> rfl

theorem check_bounds_lidars (cosr sinr : ℚ → ℚ) (maze : Maze) (d : Drone) :
    (d.check_bounds cosr sinr maze).1.lidars = d.lidars := by
  rw [check_bounds_fst]; split <;> rfl

theorem check_bounds_bc (cosr sinr : ℚ → ℚ) (maze : Maze) (d : Drone) :
    (d.check_bounds cosr sinr maze).1.bounds_color = d.bounds_color := by
  rw [check_bounds_fst]; split <;> rfl

theorem rotate_speed (cosr sinr : ℚ → ℚ) (maze : Maze) (direction : ℚ)
    (d : Drone) : (d.rotate cosr sinr maze direction).speed = d.speed := by
  simp only [rotate, check_bounds_fst]; split <;> rfl

theorem rotate_state (cosr sinr : ℚ → ℚ) (maze : Maze) (direction : ℚ)
    (d : Drone) : (d.rotate cosr sinr maze direction).state = d.state := by
  simp only [rotate, check_bounds_fst]; split <;> rfl

theorem rotate_lidars (cosr sinr : ℚ → ℚ) (maze : Maze) (direction : ℚ)
    (d : Drone) :
    (d.rotate cosr sinr maze direction).lidars =
      d.lidars.map (Lidar.add_angle (direction * d.speed)) := by
  simp only [rotate, check_bounds_fst]; split <;> rfl

theorem forward_state (acc : ℚ) (d : Drone) :
    (d.forward acc).state = d.state := rfl

theorem backward_state (acc : ℚ) (d : Drone) :
    (d.backward acc).state = d.state := rfl

theorem move_get_position (cosr sinr : ℚ → ℚ) (maze : Maze) (d : Drone) :
    (d.move cosr sinr maze).get_position =
      (pyRound (d.x_position + d.speed * d.calc_x cosr),
       pyRound (d.y_position + d.speed * d.calc_y sinr)) := by
  simp only [move, change_lidars_positions, is_crashed, get_position]
  split <;> rfl

theorem move_error (cosr sinr : ℚ → ℚ) (maze : Maze) (d : Drone) :
    (d.move cosr sinr maze).error_case =
      d.error_case +
        (if maze (pyRound (d.x_position + d.speed * d.calc_x cosr),
                  pyRound (d.y_position + d.speed * d.calc_y sinr)) =
            d.bounds_color
         then 1 else 0) := by
  simp only [move, change_lidars_positions, is_crashed, get_position]
  split <;> simp

theorem move_state (cosr sinr : ℚ → ℚ) (maze : Maze) (d : Drone) :
    (d.move cosr sinr maze).state = d.state := by
  simp only [move, change_lidars_positions, is_crashed]
  split <;> rfl

theorem handle_keys_exhausted (cosr sinr : ℚ → ℚ) (maze : Maze) (key : Key)
    (d : Drone) (h : d.time_in_air = 0) :
    d.handle_keys cosr sinr maze key =
      ({ d with state := DroneState.LAND, time_in_air := 0 }, false) := by
  simp only [handle_keys]
  split_ifs <;> simp_all

end Drone

namespace Drone

/-- Claim C2 as stated is false on the code: with the time budget at 0, the
first input call returns `false` and leaves the state LAND, but the
immediately following call with a motion intent (up key) again returns
`false` and leaves the state LAND instead of processing the intent — the
LAND → TAKE_OFF transition is immediately overridden because the budget is
still 0. -/
theorem C2_counterexample :
    ((({ Drone.init 0 0 0 1 [] with time_in_air := 0 } : Drone).handle_keys
          (fun _ => 0) (fun _ => 0) (fun _ => 0)
          ⟨false, false, true, false⟩).1.handle_keys
        (fun _ => 0) (fun _ => 0) (fun _ => 0)
        ⟨false, false, true, false⟩).2 = false ∧
    ((({ Drone.init 0 0 0 1 [] with time_in_air := 0 } : Drone).handle_keys
          (fun _ => 0) (fun _ => 0) (fun _ => 0)
          ⟨false, false, true, false⟩).1.handle_keys
        (fun _ => 0) (fun _ => 0) (fun _ => 0)
        ⟨false, false, true, false⟩).1.state = DroneState.LAND := by
  have h1 := handle_keys_exhausted (fun _ => 0) (fun _ => 0) (fun _ => 0)
    ⟨false, false, true, false⟩
    ({ Drone.init 0 0 0 1 [] with time_in_air := 0 }) rfl
  have h2 := handle_keys_exhausted (fun _ => 0) (fun _ => 0) (fun _ => 0)
    ⟨false, false, true, false⟩
    ({ ({ Drone.init 0 0 0 1 [] with time_in_air := 0 } : Drone) with
        state := DroneState.LAND, time_in_air := 0 }) rfl
  simp only [h1]
  simp only [h2]
  simp

/-- Claim C2, amended: with the time budget at 0, every `handle_keys` call
returns `false` and leaves the state LAND with the budget still 0; the
following call is no different (the transient LAND → TAKE_OFF transition is
immediately overridden), so the drone is not revived. -/
theorem C2_exhausted_land (cosr sinr : ℚ → ℚ) (maze : Maze) (k k' : Key)
    (d : Drone) (h : d.time_in_air = 0) :
    (d.handle_keys cosr sinr maze k).2 = false ∧
    (d.handle_keys cosr sinr maze k).1.state = DroneState.LAND ∧
    (d.handle_keys cosr sinr maze k).1.time_in_air = 0 ∧
    ((d.handle_keys cosr sinr maze k).1.handle_keys cosr sinr maze k').2 =
      false ∧
    ((d.handle_keys cosr sinr maze k).1.handle_keys cosr sinr maze k').1.state
      = DroneState.LAND := by
  have h1 := handle_keys_exhausted cosr sinr maze k d h
  have h2 := handle_keys_exhausted cosr sinr maze k'
    ({ d with state := DroneState.LAND, time_in_air := 0 }) rfl
  simp only [h1]
  simp only [h2]
  simp

/-- Witness for the amended C2 at a concrete input: the initial drone with
its budget set to 0 and the up key pressed twice. -/
theorem C2_exhausted_land_witness :
    ({ Drone.init 0 0 0 1 [] with time_in_air := 0 } : Drone).time_in_air
        = 0 ∧
    ((({ Drone.init 0 0 0 1 [] with time_in_air := 0 } : Drone).handle_keys
          (fun _ => 0) (fun _ => 0) (fun _ => 0)
          ⟨false, false, true, false⟩).2 = false ∧
      (({ Drone.init 0 0 0 1 [] with time_in_air := 0 } : Drone).handle_keys
          (fun _ => 0) (fun _ => 0) (fun _ => 0)
          ⟨false, false, true, false⟩).1.state = DroneState.LAND ∧
      (({ Drone.init 0 0 0 1 [] with time_in_air := 0 } : Drone).handle_keys
          (fun _ => 0) (fun _ => 0) (fun _ => 0)
          ⟨false, false, true, false⟩).1.time_in_air = 0 ∧
      ((({ Drone.init 0 0 0 1 [] with time_in_air := 0 } : Drone).handle_keys
            (fun _ => 0) (fun _ => 0) (fun _ => 0)
            ⟨false, false, true, false⟩).1.handle_keys
          (fun _ => 0) (fun _ => 0) (fun _ => 0)
          ⟨false, false, true, false⟩).2 = false ∧
      ((({ Drone.init 0 0 0 1 [] with time_in_air := 0 } : Drone).handle_keys
            (fun _ => 0) (fun _ => 0) (fun _ => 0)
            ⟨false, false, true, false⟩).1.handle_keys
          (fun _ => 0) (fun _ => 0) (fun _ => 0)
          ⟨false, false, true, false⟩).1.state = DroneState.LAND) :=
  ⟨rfl, C2_exhausted_land (fun _ => 0) (fun _ => 0) (fun _ => 0)
    ⟨false, false, true, false⟩ ⟨false, false, true, false⟩ _ rfl⟩

/-- Claim C6: on a raster whose every pixel except the drone's start pixel
carries the bounds color, a `move()` whose resulting rounded position
differs from the start pixel increments `error_case` by exactly 1. -/
theorem C6_move_crash_increment (cosr sinr : ℚ → ℚ) (maze : Maze) (d : Drone)
    (hmz : ∀ p : ℤ × ℤ, p ≠ d.get_position → maze p = d.bounds_color)
    (hmoved : (d.move cosr sinr maze).get_position ≠ d.get_position) :
    (d.move cosr sinr maze).error_case = d.error_case + 1 := by
  rw [move_error, ← move_get_position cosr sinr maze d,
    if_pos (hmz _ hmoved)]

/-- Witness for C6 at a concrete input: drone at the origin with speed 1 and
yaw 0 (`cosr`/`sinr` evaluated at 0 give 1 and 0), on a raster that is
bounds-colored everywhere except the origin; the move lands on pixel (3, 0). -/
theorem C6_move_crash_increment_witness :
    (∀ p : ℤ × ℤ,
        p ≠ ({ Drone.init 0 0 0 1 [] with speed := 1 } : Drone).get_position →
        (fun q : ℤ × ℤ => if q = (0, 0) then (0 : ℕ) else 1) p =
          ({ Drone.init 0 0 0 1 [] with speed := 1 } : Drone).bounds_color) ∧
    (({ Drone.init 0 0 0 1 [] with speed := 1 } : Drone).move (fun _ => 1)
          (fun _ => 0)
          (fun q : ℤ × ℤ => if q = (0, 0) then (0 : ℕ) else 1)).get_position ≠
      ({ Drone.init 0 0 0 1 [] with speed := 1 } : Drone).get_position ∧
    (({ Drone.init 0 0 0 1 [] with speed := 1 } : Drone).move (fun _ => 1)
        (fun _ => 0)
        (fun q : ℤ × ℤ => if q = (0, 0) then (0 : ℕ) else 1)).error_case =
      ({ Drone.init 0 0 0 1 [] with speed := 1 } : Drone).error_case + 1 := by
  have hpos :
      ({ Drone.init 0 0 0 1 [] with speed := 1 } : Drone).get_position =
        ((0 : ℤ), (0 : ℤ)) := by
    norm_num [Drone.get_position, Drone.init, pyRound]
  have h1 : ∀ p : ℤ × ℤ,
      p ≠ ({ Drone.init 0 0 0 1 [] with speed := 1 } : Drone).get_position →
      (fun q : ℤ × ℤ => if q = (0, 0) then (0 : ℕ) else 1) p =
        ({ Drone.init 0 0 0 1 [] with speed := 1 } : Drone).bounds_color := by
    intro p hp
    rw [hpos] at hp
    simp only [if_neg hp]
    rfl
  have h2 :
      (({ Drone.init 0 0 0 1 [] with speed := 1 } : Drone).move (fun _ => 1)
            (fun _ => 0)
            (fun q : ℤ × ℤ => if q = (0, 0) then (0 : ℕ) else 1)).get_position
        ≠ ({ Drone.init 0 0 0 1 [] with speed := 1 } : Drone).get_position := by
    rw [move_get_position]
    norm_num [Drone.get_position, Drone.calc_x, Drone.calc_y, Drone.init,
      pyRound]
  exact ⟨h1, h2,
    C6_move_crash_increment (fun _ => 1) (fun _ => 0)
      (fun q : ℤ × ℤ => if q = (0, 0) then (0 : ℕ) else 1) _ h1 h2⟩

/-- Claim C7: over any sequence of `rotate(direction)` calls, every owned
lidar's `relative_angle` gains exactly the cumulative pre-normalisation
delta applied to the drone's yaw, namely `speed * (sum of directions)`
(each call adds `direction * speed` to the yaw and to every lidar). -/
theorem C7_lidar_tracks_yaw (cosr sinr : ℚ → ℚ) (maze : Maze) (ds : List ℚ)
    (d : Drone) :
    (rotateSeq cosr sinr maze ds d).lidars.map Lidar.relative_angle =
      d.lidars.map (fun l => l.relative_angle + d.speed * ds.sum) ∧
    cumYawDelta cosr sinr maze ds d = d.speed * ds.sum := by
  induction ds generalizing d with
  | nil => simp [rotateSeq, cumYawDelta]
  | cons dir rest ih =>
      have hstep :
          rotateSeq cosr sinr maze (dir :: rest) d =
            rotateSeq cosr sinr maze rest (d.rotate cosr sinr maze dir) := rfl
      have hs := rotate_speed cosr sinr maze dir d
      have hl := rotate_lidars cosr sinr maze dir d
      constructor
      · rw [hstep, (ih (d.rotate cosr sinr maze dir)).1, hl, hs,
          List.map_map, List.sum_cons]
        congr 1
        funext l
        simp only [Function.comp, Lidar.add_angle]
        ring
      · show d.yawDelta dir +
            cumYawDelta cosr sinr maze rest (d.rotate cosr sinr maze dir) = _
        rw [(ih (d.rotate cosr sinr maze dir)).2, hs, yawDelta,
          List.sum_cons]
        ring

/-- Claim C8: for every state and raster, the `error_case` increment of
`check_bounds` is exactly the own-pixel sample at
`(int(x_position), int(y_position))`, and that of `move` is exactly the
own-pixel sample at the new rounded position — in both, lidar hits never
contribute. -/
theorem C8_crash_from_own_sample_only (cosr sinr : ℚ → ℚ) (maze : Maze)
    (d : Drone) :
    (d.check_bounds cosr sinr maze).1.error_case =
      d.error_case +
        (if maze (pyInt d.x_position, pyInt d.y_position) = d.bounds_color
         then 1 else 0) ∧
    (d.move cosr sinr maze).error_case =
      d.error_case +
        (if maze (d.move cosr sinr maze).get_position = d.bounds_color
         then 1 else 0) :=
  ⟨check_bounds_error cosr sinr maze d, by
    rw [move_get_position]
    exact move_error cosr sinr maze d⟩

end Drone

/-! ### Lemmas for the battery-string format -/

theorem pyRound_nonneg {q : ℚ} (h : 0 ≤ q) : 0 ≤ pyRound q := by
  have hf : (0 : ℤ) ≤ ⌊q⌋ := Int.floor_nonneg.mpr h
  simp only [pyRound]
  split_ifs <;> omega

theorem pyRound_le {q : ℚ} {B : ℤ} (h : q ≤ (B : ℚ)) : pyRound q ≤ B := by
  have hfle : ⌊q⌋ ≤ B := by
    have := Int.floor_le_floor h
    rwa [Int.floor_intCast] at this
  have hflr : (⌊q⌋ : ℚ) ≤ q := Int.floor_le q
  simp only [pyRound]
  split_ifs with h1 h2 h3
  · exact hfle
  · have hq : (⌊q⌋ : ℚ) + 1/2 < q := by linarith
    have : (⌊q⌋ : ℚ) < (B : ℚ) := by linarith
    have : ⌊q⌋ < B := by exact_mod_cast this
    omega
  · exact hfle
  · have hge : (1 : ℚ)/2 ≤ q - ⌊q⌋ := le_of_not_lt h1
    have : (⌊q⌋ : ℚ) < (B : ℚ) := by linarith
    have : ⌊q⌋ < B := by exact_mod_cast this
    omega

theorem takeWhile_ne_dot (l1 l2 : List Char) (h1 : ∀ c ∈ l1, c ≠ '.')
    (h2 : l2 = [] ∨ ∃ r, l2 = '.' :: r) :
    (l1 ++ l2).takeWhile (fun c => c ≠ '.') = l1 := by
  induction l1 with
  | nil =>
      rcases h2 with rfl | ⟨r, rfl⟩
      · rfl
      · rfl
  | cons c l1 ih =>
      have hc : c ≠ '.' := h1 c (List.mem_cons_self c l1)
      have hrec := ih (fun x hx => h1 x (List.mem_cons_of_mem _ hx))
      simp only [List.cons_append, List.takeWhile_cons]
      rw [hrec]
      simp [hc]

theorem pad2_eq_digits (n : ℤ) (h0 : 0 ≤ n) (h : n < 100) :
    pad2 n =
      String.mk [Nat.digitChar (n.toNat / 10), Nat.digitChar (n.toNat % 10)] := by
  unfold pad2
  rw [if_pos ⟨h0, h⟩]

theorem digitChar_facts :
    ∀ n : ℕ, n < 10 →
      (Nat.digitChar n).isDigit = true ∧ Nat.digitChar n ≠ '.' := by decide

theorem isHMMSS_base (a b c e : Char) (ha : a.isDigit = true)
    (hb : b.isDigit = true) (hc : c.isDigit = true) (he : e.isDigit = true) :
    isHMMSS (String.mk ['0', ':', a, b, ':', c, e]) = true := by
  unfold isHMMSS
  simp [List.takeWhile_cons, List.dropWhile_cons, ha, hb, hc, he]

/-- The character list of the `H:MM:SS` part rendered by `tdFormat` when the
hour field is 0 and the minute and second fields are two digits each. -/
theorem base_data (M S : ℤ) (hm0 : 0 ≤ M) (hm : M < 100) (hs0 : 0 ≤ S)
    (hs : S < 100) :
    (toString (0 : ℤ) ++ ":" ++ pad2 M ++ ":" ++ pad2 S).data =
      ['0', ':', Nat.digitChar (M.toNat / 10), Nat.digitChar (M.toNat % 10),
       ':', Nat.digitChar (S.toNat / 10), Nat.digitChar (S.toNat % 10)] := by
  rw [pad2_eq_digits M hm0 hm, pad2_eq_digits S hs0 hs]
  rfl

theorem isHMMSS_zero_hour (M S : ℤ) (hm0 : 0 ≤ M) (hm : M < 60)
    (hs0 : 0 ≤ S) (hs : S < 60) (tail : List Char)
    (htail : tail = [] ∨ ∃ r, tail = '.' :: r) :
    isHMMSS (pySplitDotHead
      ⟨(toString (0 : ℤ) ++ ":" ++ pad2 M ++ ":" ++ pad2 S).data ++ tail⟩) =
        true := by
  have hM1 : M.toNat / 10 < 10 := by omega
  have hM2 : M.toNat % 10 < 10 := by omega
  have hS1 : S.toNat / 10 < 10 := by omega
  have hS2 : S.toNat % 10 < 10 := by omega
  rw [base_data M S hm0 (by omega) hs0 (by omega)]
  unfold pySplitDotHead
  have hlist :
      ((⟨['0', ':', Nat.digitChar (M.toNat / 10), Nat.digitChar (M.toNat % 10),
          ':', Nat.digitChar (S.toNat / 10), Nat.digitChar (S.toNat % 10)] ++
            tail⟩ : String)).toList =
        ['0', ':', Nat.digitChar (M.toNat / 10), Nat.digitChar (M.toNat % 10),
         ':', Nat.digitChar (S.toNat / 10), Nat.digitChar (S.toNat % 10)] ++
          tail := rfl
  rw [hlist, takeWhile_ne_dot _ tail ?h1 htail]
  case h1 =>
    intro x hx
    simp only [List.mem_cons, List.not_mem_nil, or_false] at hx
    rcases hx with rfl | rfl | rfl | rfl | rfl | rfl | rfl
    · decide
    · decide
    · exact (digitChar_facts _ hM1).2
    · exact (digitChar_facts _ hM2).2
    · decide
    · exact (digitChar_facts _ hS1).2
    · exact (digitChar_facts _ hS2).2
  exact isHMMSS_base _ _ _ _ (digitChar_facts _ hM1).1 (digitChar_facts _ hM2).1
    (digitChar_facts _ hS1).1 (digitChar_facts _ hS2).1

theorem tdFormat_isHMMSS (us : ℤ) (h0 : 0 ≤ us) (hB : us ≤ 300000000) :
    isHMMSS (pySplitDotHead (tdFormat us)) = true := by
  have h6 : (0 : ℤ) ≤ 1000000 := by norm_num
  have h864 : (0 : ℤ) ≤ 86400 := by norm_num
  have h60 : (0 : ℤ) ≤ 60 := by norm_num
  have hfd6 : ∀ a : ℤ, a.fdiv 1000000 = a / 1000000 :=
    fun a => Int.fdiv_eq_ediv a h6
  have hfm6 : ∀ a : ℤ, a.fmod 1000000 = a % 1000000 :=
    fun a => Int.fmod_eq_emod a h6
  have hfd864 : ∀ a : ℤ, a.fdiv 86400 = a / 86400 :=
    fun a => Int.fdiv_eq_ediv a h864
  have hfm864 : ∀ a : ℤ, a.fmod 86400 = a % 86400 :=
    fun a => Int.fmod_eq_emod a h864
  have hfd60 : ∀ a : ℤ, a.fdiv 60 = a / 60 :=
    fun a => Int.fdiv_eq_ediv a h60
  have hfm60 : ∀ a : ℤ, a.fmod 60 = a % 60 :=
    fun a => Int.fmod_eq_emod a h60
  have hsec0 : 0 ≤ us / 1000000 := by omega
  have hsecB : us / 1000000 ≤ 300 := by omega
  have hdays : us / 1000000 / 86400 = 0 := by omega
  have hsecs : us / 1000000 % 86400 = us / 1000000 := by omega
  have hhh : us / 1000000 / 60 / 60 = 0 := by omega
  have hmmv : us / 1000000 / 60 % 60 = us / 1000000 / 60 := by omega
  simp only [tdFormat, hfd6, hfm6, hfd864, hfm864, hfd60, hfm60, hsecs,
    hdays, hhh, hmmv]
  rw [if_neg (by norm_num)]
  split_ifs with hfrac
  · have hdata :
        ((toString (0 : ℤ) ++ ":" ++ pad2 (us / 1000000 / 60) ++ ":" ++
            pad2 (us / 1000000 % 60)) ++ "." ++ pad6 (us % 1000000)).data =
          (toString (0 : ℤ) ++ ":" ++ pad2 (us / 1000000 / 60) ++ ":" ++
            pad2 (us / 1000000 % 60)).data ++
            ('.' :: (pad6 (us % 1000000)).data) := by
      simp [String.data_append]
    have hstr :
        (toString (0 : ℤ) ++ ":" ++ pad2 (us / 1000000 / 60) ++ ":" ++
            pad2 (us / 1000000 % 60)) ++ "." ++ pad6 (us % 1000000) =
          (⟨(toString (0 : ℤ) ++ ":" ++ pad2 (us / 1000000 / 60) ++ ":" ++
              pad2 (us / 1000000 % 60)).data ++
              ('.' :: (pad6 (us % 1000000)).data)⟩ : String) := by
      rw [← hdata]
    rw [hstr]
    exact isHMMSS_zero_hour _ _ (by omega) (by omega) (by omega) (by omega)
      _ (Or.inr ⟨_, rfl⟩)
  · have heta : ∀ s : String, (⟨s.data ++ ([] : List Char)⟩ : String) = s := by
      intro s; cases s; simp
    rw [← heta (toString (0 : ℤ) ++ ":" ++ pad2 (us / 1000000 / 60) ++ ":" ++
          pad2 (us / 1000000 % 60))]
    exact isHMMSS_zero_hour _ _ (by omega) (by omega) (by omega) (by omega)
      _ (Or.inl rfl)

namespace Drone

theorem get_info_dict_battery (d : Drone) (info : InfoDict)
    (h : d.get_info_dict = some info) :
    info.battery = pySplitDotHead (pyTimedeltaStr d.time_in_air) := by
  unfold get_info_dict at h
  rcases e0 : d.lidars[0]? with _ | l0
  · rw [e0] at h; simp at h
  rcases e1 : d.lidars[1]? with _ | l1
  · rw [e0, e1] at h; simp at h
  rcases e2 : d.lidars[2]? with _ | l2
  · rw [e0, e1, e2] at h; simp at h
  rw [e0, e1, e2] at h
  injection h with h2
  rw [← h2]

/-- Claim C9: for every time budget in `[0, MAX_FLIGHT_TIME]`, the `battery`
field of the telemetry snapshot is a string strictly in `H:MM:SS` format
(integer seconds, no sub-second component). -/
theorem C9_battery_format (d : Drone) (info : InfoDict)
    (h0 : 0 ≤ d.time_in_air) (h1 : d.time_in_air ≤ MAX_FLIGHT_TIME)
    (hinfo : d.get_info_dict = some info) :
    isHMMSS info.battery = true := by
  rw [get_info_dict_battery d info hinfo]
  unfold pyTimedeltaStr
  apply tdFormat_isHMMSS
  · exact pyRound_nonneg (by positivity)
  · apply pyRound_le
    rw [MAX_FLIGHT_TIME] at h1
    push_cast
    linarith

/-- Witness for C9 at a concrete input: the freshly initialised drone with a
head/right/left lidar layout and its full budget of 300 seconds. -/
theorem C9_battery_format_witness :
    0 ≤ (Drone.init 0 0 0 1
          [⟨0, (0, 0), 5⟩, ⟨30, (0, 0), 5⟩, ⟨330, (0, 0), 5⟩]).time_in_air ∧
    (Drone.init 0 0 0 1
        [⟨0, (0, 0), 5⟩, ⟨30, (0, 0), 5⟩, ⟨330, (0, 0), 5⟩]).time_in_air ≤
      MAX_FLIGHT_TIME ∧
    (Drone.init 0 0 0 1
        [⟨0, (0, 0), 5⟩, ⟨30, (0, 0), 5⟩, ⟨330, (0, 0), 5⟩]).get_info_dict =
      some
        { yaw := 0
          speed := 0
          left := ⟨330, (0, 0), 5⟩
          right := ⟨30, (0, 0), 5⟩
          head := ⟨0, (0, 0), 5⟩
          crash := 0
          score := 0
          battery :=
            pySplitDotHead (pyTimedeltaStr
              (Drone.init 0 0 0 1
                [⟨0, (0, 0), 5⟩, ⟨30, (0, 0), 5⟩,
                 ⟨330, (0, 0), 5⟩]).time_in_air) } ∧
    isHMMSS
      (InfoDict.battery
        { yaw := 0
          speed := 0
          left := ⟨330, (0, 0), 5⟩
          right := ⟨30, (0, 0), 5⟩
          head := ⟨0, (0, 0), 5⟩
          crash := 0
          score := 0
          battery :=
            pySplitDotHead (pyTimedeltaStr
              (Drone.init 0 0 0 1
                [⟨0, (0, 0), 5⟩, ⟨30, (0, 0), 5⟩,
                 ⟨330, (0, 0), 5⟩]).time_in_air) }) = true :=
  ⟨by norm_num [Drone.init, MAX_FLIGHT_TIME],
    by norm_num [Drone.init, MAX_FLIGHT_TIME],
    rfl,
    C9_battery_format
      (Drone.init 0 0 0 1 [⟨0, (0, 0), 5⟩, ⟨30, (0, 0), 5⟩, ⟨330, (0, 0), 5⟩])
      { yaw := 0
        speed := 0
        left := ⟨330, (0, 0), 5⟩
        right := ⟨30, (0, 0), 5⟩
        head := ⟨0, (0, 0), 5⟩
        crash := 0
        score := 0
        battery :=
          pySplitDotHead (pyTimedeltaStr
            (Drone.init 0 0 0 1
              [⟨0, (0, 0), 5⟩, ⟨30, (0, 0), 5⟩,
               ⟨330, (0, 0), 5⟩]).time_in_air) }
      (by norm_num [Drone.init, MAX_FLIGHT_TIME])
      (by norm_num [Drone.init, MAX_FLIGHT_TIME]) rfl⟩

/-- Claim C10: for every state and raster, `check_bounds` returns `False` —
also when the own-pixel sample hits the bounds color and `error_case` is
incremented — so its caller can never learn of a boundary contact from the
return value. -/
theorem C10_check_bounds_always_false (cosr sinr : ℚ → ℚ) (maze : Maze)
    (d : Drone) : (d.check_bounds cosr sinr maze).2.2 = false := rfl

end Drone

end DroneSim
